import Mathlib

/-!
Verification of the reconciliation-and-fetch pipeline in
workflow/scripts/download_sigs.py.

The script is embedded shallowly. The filesystem is a `Finset String` of the
paths that exist; the remote service is a `Remote` structure giving, per
identifier, the outcome of the resolution request and, per URL, the outcome of
the streaming request. The value of one download coroutine, as observed by
asyncio.gather with return_exceptions=True, is a `PyResult`; the whole script
(steps 2, 3 and 4) is `runPipeline`.
-/

namespace DownloadSigs

/-- Canonical artifact path for an identifier: the configured wort_sigs cache
directory joined with the file name sraid + ".sig" (download_sigs.py, lines 29
and 60). -/
def sigPath (dir sraid : String) : String :=
  dir ++ "/" ++ sraid ++ ".sig"

/-- Step 2, lines 26-33: identifiers whose signature file already exists in the
cache directory. `disk` is the set of paths that exist on the filesystem. -/
def presentIds (dir : String) (disk sraids : Finset String) : Finset String :=
  sraids.filter (fun id => sigPath dir id ∈ disk)

/-- Step 2, lines 26-33: identifiers whose signature file does not exist; these
are collected into the sraids_to_download set. -/
def sraids_to_download (dir : String) (disk sraids : Finset String) : Finset String :=
  sraids.filter (fun id => sigPath dir id ∉ disk)

/-- Step 2: the initial sig_paths set, holding the path of every
already-present identifier. -/
def cachedPaths (dir : String) (disk sraids : Finset String) : Finset String :=
  (presentIds dir disk sraids).image (sigPath dir)

/-- Outcome of the resolution request client.get on the wort view URL
(line 41): either a response, carrying the is_redirect and is_success status
flags and the optional next_request, or a raised transport exception
(connection error, timeout), which gather captures. -/
inductive ResolveResult where
  | response (isRedirect isSuccess : Bool) (nextRequest : Option String)
  | raise (msg : String)
deriving DecidableEq

/-- Outcome of streaming the redirect target (lines 49-55): the body streams
completely, or raise_for_status raises on a non-success status (line 50, before
the temporary file is created), or a read/write error raises mid-stream while
the temporary file is open. -/
inductive StreamResult where
  | ok
  | statusErr (msg : String)
  | midErr (msg : String)
deriving DecidableEq

/-- The remote service as seen by one run: the resolution answer per identifier
and the streaming answer per URL. Unchanged for the duration of a run. -/
structure Remote where
  resolve : String → ResolveResult
  stream : String → StreamResult

/-- Value of one download_sig coroutine as collected by
asyncio.gather(..., return_exceptions=True) (line 70): the function returns
None, returns a pathlib.Path object, or raises, in which case the exception
itself is the result. It never returns a str. -/
inductive PyResult where
  | none
  | pathObj (p : String)
  | exn (msg : String)
deriving DecidableEq

/-- download_sig, lines 40-62, as the value produced for one identifier. A
response that is neither a redirect nor a success returns None (lines 43-44).
Otherwise the code takes response.next_request (line 48); if that is None,
request.url raises an AttributeError. With a URL in hand it streams: a
raise_for_status failure or a mid-stream error propagates as an exception;
a complete stream is copied to sigPath and that path is returned (line 62). -/
def download_sig (dir : String) (remote : Remote) (sraid : String) : PyResult :=
  match remote.resolve sraid with
  | .raise m => .exn m
  | .response isRedirect isSuccess nextRequest =>
    if ¬(isRedirect || isSuccess) then .none
    else
      match nextRequest with
      | Option.none => .exn "AttributeError"
      | Option.some url =>
        match remote.stream url with
        | .ok => .pathObj (sigPath dir sraid)
        | .statusErr m => .exn m
        | .midErr m => .exn m

/-- True exactly when the gather result is a pathlib.Path, i.e. the download
completed and its copy to the final path ran. -/
def isPathObj : PyResult → Bool
  | .pathObj _ => true
  | _ => false

/-- Paths whose download completed: for these identifiers the copy at line 61
has written the file into the cache directory by the time gather returns. -/
def fetchedPaths (dir : String) (remote : Remote) (missing : Finset String) : Finset String :=
  (missing.filter (fun id => isPathObj (download_sig dir remote id))).image (sigPath dir)

/-- Result-handling loop, lines 77-88. None results are skipped (line 80). An
exception result is re-raised (line 85), which aborts the loop and the run. A
pathlib.Path result matches none of the branches: it is not None, not a
BaseException, and the isinstance check at line 86 tests for str, which a
pathlib.Path is not, so the add at line 88 never runs and sig_paths is left
unchanged. -/
def processResults (sig_paths : Finset String) : List PyResult → Except String (Finset String)
  | [] => .ok sig_paths
  | PyResult.none :: rs => processResults sig_paths rs
  | PyResult.exn m :: _ => .error m
  | PyResult.pathObj _ :: rs => processResults sig_paths rs

/-- Comparison of identifiers by the character data of the underlying strings,
used to fix one enumeration order for the embedded run. Iteration order over a
Python set is unspecified and nothing observable in `RunResult` depends on it:
the loop never adds to sig_paths, and whether some result is an exception does
not depend on order. -/
def strData (a b : String) : Prop := a.data ≤ b.data

instance : DecidableRel strData := fun a b => inferInstanceAs (Decidable (a.data ≤ b.data))

instance : IsTotal String strData := ⟨fun a b => le_total a.data b.data⟩

instance : IsTrans String strData := ⟨fun _ _ _ h1 h2 => le_trans h1 h2⟩

instance : IsAntisymm String strData := ⟨fun _ _ h1 h2 => String.ext (le_antisymm h1 h2)⟩

/-- Enumeration of a set of identifiers as a sorted list, standing for the
iteration order of the Python set. -/
def enumIds (s : Finset String) : List String :=
  Quot.liftOn s.val (fun l => l.insertionSort strData) (fun a b h =>
    List.eq_of_perm_of_sorted
      ((List.perm_insertionSort _ a).trans (h.trans (List.perm_insertionSort _ b).symm))
      (List.sorted_insertionSort _ a) (List.sorted_insertionSort _ b))

/-- Observable outcome of one run: the manifest written at step 4 (Option.none
when the run aborted on a re-raised exception before reaching step 4), the
final contents of the filesystem, and how many download_sig coroutines were
started. -/
structure RunResult where
  manifest : Option (Finset String)
  disk : Finset String
  attempts : Nat

/-- Steps 2-4 of download_sigs.py for one run. `skip_download` is the optional
configuration entry read by config.get with default True (line 73): the fetch
phase runs only when the entry is present and False. When it runs, every
coroutine finishes under gather before the result loop starts, so each
successful download has already copied its file into the cache even if the
loop later re-raises an exception and the manifest is never written. Step 4
(lines 93-96) writes each collected path that still exists at write time. -/
def runPipeline (dir : String) (skip_download : Option Bool) (remote : Remote)
    (disk sraids : Finset String) : RunResult :=
  let sig_paths := cachedPaths dir disk sraids
  let missing := sraids_to_download dir disk sraids
  if (skip_download.getD true) = false then
    let results := (enumIds missing).map (download_sig dir remote)
    let disk2 := disk ∪ fetchedPaths dir remote missing
    match processResults sig_paths results with
    | .error _ => ⟨Option.none, disk2, missing.card⟩
    | .ok st => ⟨Option.some (st.filter (· ∈ disk2)), disk2, missing.card⟩
  else
    ⟨Option.some (sig_paths.filter (· ∈ disk)), disk, 0⟩

/-- The path map is injective in the identifier, for a fixed cache directory:
distinct identifiers name distinct files. -/
theorem sigPath_injective (dir : String) : Function.Injective (sigPath dir) := by
  intro a b h
  unfold sigPath at h
  have hd : (dir ++ "/" ++ a ++ ".sig").data = (dir ++ "/" ++ b ++ ".sig").data := by
    rw [h]
  simp only [String.data_append] at hd
  have h2 := List.append_cancel_right hd
  have h3 := List.append_cancel_left h2
  exact String.ext h3

/-- C5: for every desired-identifier set, the step-2 cache split partitions the
input exactly into present and missing: their union is the input and their
intersection is empty. -/
theorem split_partitions (dir : String) (disk sraids : Finset String) :
    presentIds dir disk sraids ∪ sraids_to_download dir disk sraids = sraids ∧
    presentIds dir disk sraids ∩ sraids_to_download dir disk sraids = ∅ := by
  constructor
  · ext id
    simp only [presentIds, sraids_to_download, Finset.mem_union, Finset.mem_filter]
    tauto
  · ext id
    simp only [presentIds, sraids_to_download, Finset.mem_inter, Finset.mem_filter,
      Finset.not_mem_empty, iff_false]
    tauto

/-- The result-handling loop never adds anything to sig_paths: when it finishes
without re-raising, the set it leaves behind is the set it started from. -/
theorem processResults_ok_eq (st : Finset String) (rs : List PyResult) (st2 : Finset String)
    (h : processResults st rs = Except.ok st2) : st2 = st := by
  induction rs with
  | nil =>
    simp only [processResults, Except.ok.injEq] at h
    exact h.symm
  | cons r rs ih =>
    cases r with
    | none => exact ih (by simpa [processResults] using h)
    | pathObj p => exact ih (by simpa [processResults] using h)
    | exn m => simp [processResults] at h

/-- Every path collected at step 2 exists on disk: it was put into sig_paths
only after the existence test at line 30 succeeded. -/
theorem cachedPaths_subset_disk (dir : String) (disk sraids : Finset String) :
    cachedPaths dir disk sraids ⊆ disk := by
  intro p hp
  rcases Finset.mem_image.mp hp with ⟨id, hid, rfl⟩
  exact (Finset.mem_filter.mp hid).2

/-- Whenever a run writes a manifest, that manifest is contained both in the
step-2 cached-path set (the loop adds nothing to sig_paths) and in the set of
files on disk at write time (the step-4 existence re-check). -/
theorem manifest_sub (dir : String) (skip : Option Bool) (remote : Remote)
    (disk sraids : Finset String) (m : Finset String)
    (hm : (runPipeline dir skip remote disk sraids).manifest = Option.some m) :
    m ⊆ cachedPaths dir disk sraids ∧
    m ⊆ (runPipeline dir skip remote disk sraids).disk := by
  unfold runPipeline at hm ⊢
  by_cases hskip : (skip.getD true) = false
  · simp only [if_pos hskip] at hm ⊢
    cases hE : processResults (cachedPaths dir disk sraids)
        ((enumIds (sraids_to_download dir disk sraids)).map (download_sig dir remote)) with
    | error e =>
      rw [hE] at hm
      exact Option.noConfusion hm
    | ok st =>
      rw [hE] at hm
      have hst := processResults_ok_eq _ _ _ hE
      subst hst
      have hm2 := Option.some.inj hm
      subst hm2
      exact ⟨fun p hp => (Finset.mem_filter.mp hp).1, fun p hp => (Finset.mem_filter.mp hp).2⟩
  · simp only [if_neg hskip] at hm ⊢
    simp only [Option.some.injEq] at hm
    subst hm
    exact ⟨fun p hp => (Finset.mem_filter.mp hp).1, fun p hp => (Finset.mem_filter.mp hp).2⟩

/-- Resolution outcome used by the witness of notfound_excluded: every
identifier resolves to a response that is neither a redirect nor a success. -/
def notFoundRemote : Remote :=
  ⟨fun _ => ResolveResult.response false false Option.none, fun _ => StreamResult.ok⟩

/-- C7: an identifier whose resolution response is neither a success nor a
redirect gets None as its outcome (lines 43-44), a valid non-error value, and
whenever the run writes a manifest, the path of that identifier is not in it. -/
theorem notfound_excluded (dir : String) (skip : Option Bool) (remote : Remote)
    (disk sraids : Finset String) (sraid : String) (iR iS : Bool) (nr : Option String)
    (_hmem : sraid ∈ sraids) (hmiss : sigPath dir sraid ∉ disk)
    (hres : remote.resolve sraid = ResolveResult.response iR iS nr)
    (hflag : (iR || iS) = false) (m : Finset String)
    (hm : (runPipeline dir skip remote disk sraids).manifest = Option.some m) :
    download_sig dir remote sraid = PyResult.none ∧ sigPath dir sraid ∉ m := by
  refine ⟨by simp [download_sig, hres, hflag], fun hp => ?_⟩
  exact hmiss (cachedPaths_subset_disk dir disk sraids
    ((manifest_sub dir skip remote disk sraids m hm).1 hp))

/-- Witness for notfound_excluded at a concrete input: one desired identifier,
an empty cache, a remote that answers with a plain not-found response. -/
theorem notfound_excluded_witness :
    download_sig "cache" notFoundRemote "A" = PyResult.none ∧
    sigPath "cache" "A" ∉ (∅ : Finset String) :=
  notfound_excluded "cache" (Option.some false) notFoundRemote ∅ {"A"} "A" false false
    Option.none (by decide) (by decide) rfl rfl ∅ (by decide)

/-- C8: a path appears in the written manifest only if the file exists on disk
at manifest-write time; the existence re-check at line 95 filters every
candidate path, whatever outcome produced it. -/
theorem manifest_member_exists (dir : String) (skip : Option Bool) (remote : Remote)
    (disk sraids : Finset String) (m : Finset String) (p : String)
    (hm : (runPipeline dir skip remote disk sraids).manifest = Option.some m)
    (hp : p ∈ m) : p ∈ (runPipeline dir skip remote disk sraids).disk :=
  (manifest_sub dir skip remote disk sraids m hm).2 hp

/-- Witness for manifest_member_exists at a concrete input: one identifier
whose file is already cached, fetching skipped by default. -/
theorem manifest_member_exists_witness :
    sigPath "cache" "A" ∈
      (runPipeline "cache" Option.none notFoundRemote {sigPath "cache" "A"} {"A"}).disk :=
  manifest_member_exists "cache" Option.none notFoundRemote {sigPath "cache" "A"} {"A"}
    {sigPath "cache" "A"} (sigPath "cache" "A") (by decide) (by decide)

/-- C10: when the configuration omits the skip_download key, config.get at
line 73 returns the default True, so the fetch phase is skipped: no
download_sig coroutine is started, the filesystem is untouched, and the
manifest holds exactly the already-cached paths. -/
theorem skip_is_default (dir : String) (remote : Remote) (disk sraids : Finset String) :
    (runPipeline dir Option.none remote disk sraids).manifest
      = Option.some (cachedPaths dir disk sraids) ∧
    (runPipeline dir Option.none remote disk sraids).disk = disk ∧
    (runPipeline dir Option.none remote disk sraids).attempts = 0 := by
  have hfilter : (cachedPaths dir disk sraids).filter (· ∈ disk) = cachedPaths dir disk sraids :=
    Finset.filter_eq_self.mpr (fun p hp => cachedPaths_subset_disk dir disk sraids hp)
  refine ⟨?_, rfl, rfl⟩
  simp only [runPipeline, Option.getD]
  simp [hfilter]

/-- How download_sig makes the final path exist, line 61: shutil.copyfile run
in a thread, not an os.rename of the temporary file. -/
inductive PublishMechanism where
  | atomicRename
  | copyfile
deriving DecidableEq

/-- The mechanism the code actually uses at line 61. -/
def publishMechanism : PublishMechanism := PublishMechanism.copyfile

/-- Directory argument passed to NamedTemporaryFile at line 52: no dir keyword
is given, so the temporary file is created in the system default temporary
directory rather than in the directory of the destination path. -/
def tempFileDirArg : Option String := Option.none

/-- Sizes observable at the destination path over the course of a
shutil.copyfile of an n-byte source: copyfile opens the destination (size 0
from that moment) and then appends chunk by chunk, so every intermediate size
up to n is a visible state; Option.none stands for the file being absent. -/
def copyfileTrace (n : Nat) : List (Option Nat) :=
  Option.none :: (List.range (n + 1)).map Option.some

/-- Sizes observable at the destination path under an atomic rename of a
complete n-byte temporary file: absent, then complete, with no intermediate
state. -/
def renameTrace (n : Nat) : List (Option Nat) :=
  [Option.none, Option.some n]

/-- Filesystem side effects of one download_sig call beyond its returned
value. NamedTemporaryFile(delete=False) at line 52 never removes the file it
creates, so once the temporary file exists it stays behind, whether the stream
failed mid-way or completed; the destination is written only after a fully
successful stream, by the copy at line 61. raise_for_status at line 50 fires
before the temporary file is opened. -/
structure FetchEffects where
  tempCreated : Bool
  tempRemains : Bool
  destWritten : Bool
deriving DecidableEq

/-- Side effects of download_sig, lines 40-62, per identifier. -/
def download_sig_effects (remote : Remote) (sraid : String) : FetchEffects :=
  match remote.resolve sraid with
  | .raise _ => ⟨false, false, false⟩
  | .response isRedirect isSuccess nextRequest =>
    if ¬(isRedirect || isSuccess) then ⟨false, false, false⟩
    else
      match nextRequest with
      | Option.none => ⟨false, false, false⟩
      | Option.some url =>
        match remote.stream url with
        | .statusErr _ => ⟨false, false, false⟩
        | .midErr _ => ⟨true, true, false⟩
        | .ok => ⟨true, true, true⟩

/-- Number of download coroutines the collect scheduler (lines 64-71) has in
flight at once: it creates one coroutine per missing identifier and gathers
them all together, with no task-level bound of any kind. -/
def tasksInFlight (missing : Finset String) : Nat := missing.card

/-- Reachable states of the connection pool of the httpx client built at lines
65-66 with limits=httpx.Limits(max_connections=limit): the index counts the
connections checked out. A coroutine acquires a connection only when fewer
than limit are in use, and releases one it holds; this pool, not the
scheduler, is what bounds simultaneous network operations. -/
inductive PoolReach (limit : Nat) : Nat → Prop where
  | start : PoolReach limit 0
  | acquire {n : Nat} : PoolReach limit n → n < limit → PoolReach limit (n + 1)
  | release {n : Nat} : PoolReach limit (n + 1) → PoolReach limit n

/-- Remote on which every resolution redirects and every stream completes. -/
def goodRemote : Remote :=
  ⟨fun _ => ResolveResult.response true false (Option.some "u"), fun _ => StreamResult.ok⟩

/-- Remote on which every resolution request raises a transport error. -/
def raisingRemote : Remote :=
  ⟨fun _ => ResolveResult.raise "ConnectTimeout", fun _ => StreamResult.ok⟩

/-- Remote on which resolution redirects but the stream fails mid-way. -/
def midErrRemote : Remote :=
  ⟨fun _ => ResolveResult.response true false (Option.some "u"),
   fun _ => StreamResult.midErr "ReadTimeout"⟩

/-- C1: at the concrete input of one uncached identifier whose fetch fully
succeeds, download_sig returns the path as a pathlib.Path, yet the written
manifest is empty: the isinstance check at line 86 tests for str, which the
Path is not, so the fetched path never reaches sig_paths. -/
theorem fetched_path_dropped :
    download_sig "cache" goodRemote "A" = PyResult.pathObj (sigPath "cache" "A") ∧
    isPathObj (download_sig "cache" goodRemote "A") = true ∧
    sigPath "cache" "A" ∈ (runPipeline "cache" (Option.some false) goodRemote ∅ {"A"}).disk ∧
    (runPipeline "cache" (Option.some false) goodRemote ∅ {"A"}).manifest
      = Option.some ∅ := by
  refine ⟨rfl, rfl, by decide, by decide⟩

/-- C2: the code publishes the downloaded bytes with shutil.copyfile from a
temporary file in the system temporary directory (no dir argument at line 52),
not with an atomic same-directory rename; during the copy of a 2-byte artifact
a 1-byte destination file is a visible intermediate state, a state an atomic
rename can never expose. -/
theorem publish_is_not_atomic :
    publishMechanism = PublishMechanism.copyfile ∧
    publishMechanism ≠ PublishMechanism.atomicRename ∧
    tempFileDirArg = Option.none ∧
    Option.some 1 ∈ copyfileTrace 2 ∧
    Option.some 1 ∉ renameTrace 2 := by
  refine ⟨rfl, by decide, rfl, by decide, by decide⟩

/-- C3: at the concrete input of one identifier whose resolution raises a
transport error, the exception becomes the gather result, and the result loop
re-raises it at line 85: the run aborts and no manifest is written at all. -/
theorem failure_unwinds_run :
    download_sig "cache" raisingRemote "A" = PyResult.exn "ConnectTimeout" ∧
    (runPipeline "cache" (Option.some false) raisingRemote ∅ {"A"}).manifest
      = Option.none := by
  refine ⟨rfl, by decide⟩

/-- C4, counterexample: with two missing identifiers and max_downloaders set
to 1, collect creates and gathers two coroutines at once, so the number of
download operations in flight exceeds the configured ceiling; the scheduler
itself enforces no bound. -/
theorem scheduler_exceeds_ceiling : ¬(tasksInFlight {"A", "B"} ≤ 1) := by
  decide

/-- C4, amended: the bound that does hold is enforced by the connection pool
of the httpx client, built with max_connections at line 66: in every reachable
pool state, at most limit connections are simultaneously in use. -/
theorem client_pool_bounds_connections (limit n : Nat) (h : PoolReach limit n) :
    n ≤ limit := by
  induction h with
  | start => exact Nat.zero_le _
  | acquire _ hlt _ => exact hlt
  | release _ ih => exact Nat.le_of_succ_le ih

/-- Witness for client_pool_bounds_connections: the pool state with one
connection checked out under limit 1 is reachable and within the bound. -/
theorem client_pool_bounds_connections_witness : PoolReach 1 1 ∧ 1 ≤ 1 :=
  ⟨PoolReach.acquire PoolReach.start Nat.one_pos,
   client_pool_bounds_connections 1 1 (PoolReach.acquire PoolReach.start Nat.one_pos)⟩

/-- C6, counterexample: when the stream fails mid-way, the partially written
temporary file is not discarded: NamedTemporaryFile is opened with
delete=False and nothing removes the file when the exception unwinds. -/
theorem temp_file_not_discarded :
    ¬((download_sig_effects midErrRemote "A").tempRemains = false) := by
  decide

/-- C6, amended: on a mid-stream read/write error the temporary file is never
promoted to the final destination and the outcome for the identifier is the
raised exception, but the partially written temporary file stays behind in the
system temporary directory. -/
theorem stream_error_never_promoted (dir sraid url m : String) (remote : Remote)
    (iR iS : Bool) (hres : remote.resolve sraid = ResolveResult.response iR iS (Option.some url))
    (hok : (iR || iS) = true) (hstream : remote.stream url = StreamResult.midErr m) :
    (download_sig_effects remote sraid).destWritten = false ∧
    (download_sig_effects remote sraid).tempRemains = true ∧
    download_sig dir remote sraid = PyResult.exn m := by
  refine ⟨?_, ?_, ?_⟩ <;> simp [download_sig_effects, download_sig, hres, hok, hstream]

/-- Witness for stream_error_never_promoted at a concrete input. -/
theorem stream_error_never_promoted_witness :
    (download_sig_effects midErrRemote "A").destWritten = false ∧
    (download_sig_effects midErrRemote "A").tempRemains = true ∧
    download_sig "cache" midErrRemote "A" = PyResult.exn "ReadTimeout" :=
  stream_error_never_promoted "cache" "A" "u" "ReadTimeout" midErrRemote true false rfl rfl rfl

/-- C9: at the concrete input of one uncached identifier and a remote that
serves it, the first run fetches the file into the cache but writes an empty
manifest (the line 86 drop), while the second run, fetching nothing, lists the
path as already cached: the two manifests differ even though remote, desired
set and cache evolution are exactly as the claim assumes. -/
theorem second_run_manifest_differs :
    (runPipeline "cache" (Option.some false) goodRemote ∅ {"A"}).manifest
      = Option.some ∅ ∧
    (runPipeline "cache" (Option.some false) goodRemote
        (runPipeline "cache" (Option.some false) goodRemote ∅ {"A"}).disk {"A"}).manifest
      = Option.some {sigPath "cache" "A"} ∧
    (runPipeline "cache" (Option.some false) goodRemote
        (runPipeline "cache" (Option.some false) goodRemote ∅ {"A"}).disk {"A"}).attempts
      = 0 ∧
    (runPipeline "cache" (Option.some false) goodRemote ∅ {"A"}).manifest ≠
      (runPipeline "cache" (Option.some false) goodRemote
        (runPipeline "cache" (Option.some false) goodRemote ∅ {"A"}).disk {"A"}).manifest := by
  refine ⟨by decide, by decide, by decide, by decide⟩

end DownloadSigs
